import Mathlib

/-!
Verification of TheDevsBot (src/main.rs) against its specification.

The development shallowly embeds the pure decision logic of the bot:
file-system interactions, random draws and fallible platform calls are
made explicit as data (entry lists, a drawn number, boolean/optional
oracles for the outcome of each external call), exactly following the
control flow of the Rust source.
-/

/-! ## I/O error model

`color_eyre` errors are either raw `std::io::Error`s propagated with `?`
(which `downcast_ref::<io::Error>()` recovers) or ad-hoc errors built with
`bail!`/`eyre!` format strings (which do not downcast).  We record the
`io::ErrorKind` only where the source propagates the raw error. -/

inductive IoKind
  | permissionDenied
  | otherIo
deriving DecidableEq, Repr

inductive PoolError
  /-- `bail!("Failed to access server icon path ...")` — formatted, not downcastable. -/
  | accessFailed (k : IoKind)
  /-- `bail!("Server icon path ... is not a directory")` — the spec's `ConfigurationError`. -/
  | notADirectory
  /-- `eyre!("Failed to read ...")` from `fs::read_dir` — formatted, not downcastable. -/
  | readDirFailed
  /-- `entry?` inside the `read_dir` loop — raw io error. -/
  | entryFailed (k : IoKind)
  /-- `fs::create_dir_all(..)?` — raw io error. -/
  | mkdirFailed (k : IoKind)
  /-- `fs::remove_file(&destination)?` — raw io error. -/
  | removeFailed (k : IoKind)
  /-- the combined rename/copy failure message of `move_icon_file` — formatted. -/
  | moveFailed
  /-- `icon_filename` failed (unreachable for entries produced by `read_dir`). -/
  | missingFilename
  /-- `CreateAttachment::path(..)?` failed. -/
  | attachFailed
  /-- `guild_id.edit(..)?` (the icon upload) failed. -/
  | uploadFailed
deriving DecidableEq, Repr

/-- Models `error.downcast_ref::<io::Error>().is_some_and(|e| e.kind() == PermissionDenied)`:
only errors propagated as raw `io::Error`s can downcast. -/
def errIsDeniedIo : PoolError → Bool
  | .entryFailed .permissionDenied => true
  | .mkdirFailed .permissionDenied => true
  | .removeFailed .permissionDenied => true
  | _ => false

/-! ## Icon file model -/

/-- A directory entry as observed by `fs::read_dir`: a file name, whether
`path.is_file()` holds, and an abstract file content. -/
structure DirEntry where
  name : String
  isFile : Bool
  content : Nat
deriving DecidableEq, Repr

/-- The state of a configured directory path as observed by `fs::metadata`. -/
inductive PathState
  /-- `ErrorKind::NotFound`. -/
  | notFound
  /-- any other metadata error, with its io kind. -/
  | accessErr (k : IoKind)
  /-- metadata succeeded but `!metadata.is_dir()`. -/
  | notDir
  /-- a directory with the given entries. -/
  | dir (entries : List DirEntry)
deriving DecidableEq, Repr

def dirEntries : PathState → List DirEntry
  | .dir l => l
  | _ => []

/-- Index of the last `'.'` in a character list, if any. -/
def lastDotIndex : List Char → Option Nat
  | [] => none
  | c :: cs =>
      match lastDotIndex cs with
      | some i => some (i + 1)
      | none => if c = '.' then some 0 else none

/-- Rust's `Path::extension` on a plain file name: the part after the last
`'.'`, except that a lone leading dot does not start an extension and `".."`
has none. -/
def rustExtension (name : String) : Option String :=
  if name = ".." then none
  else
    match lastDotIndex name.data with
    | none => none
    | some 0 => none
    | some (i + 1) => some (String.mk (name.data.drop (i + 2)))

def asciiLowerChar (c : Char) : Char :=
  if 'A' ≤ c ∧ c ≤ 'Z' then Char.ofNat (c.toNat + 32) else c

/-- Rust's `str::to_ascii_lowercase`. -/
def asciiLower (s : String) : String :=
  String.mk (s.data.map asciiLowerChar)

def supportedExtensions : List String := ["png", "jpg", "jpeg", "gif", "webp"]

/-- `is_supported_icon` from the source, on the entry's file name. -/
def is_supported_icon (name : String) : Bool :=
  match rustExtension name with
  | none => false
  | some ext => supportedExtensions.contains (asciiLower ext)

/-! ## `load_icon_paths` -/

/-- Outcomes of the fallible file-system calls inside `load_icon_paths`:
`fs::create_dir_all` (`none` = success), `fs::read_dir`, and the `entry?`
results while iterating (`none` = every entry read fine). -/
structure LoadOracles where
  mkdir : Option IoKind
  readDirOk : Bool
  entry : Option IoKind
deriving DecidableEq, Repr

/-- `load_icon_paths(directory)`.  `pathEmpty` is
`directory.as_os_str().is_empty()`; the returned `Bool` records whether the
directory was created (the `NotFound` branch). -/
def load_icon_paths (pathEmpty : Bool) (st : PathState) (o : LoadOracles) :
    Except PoolError (List DirEntry × Bool) :=
  if pathEmpty then .ok ([], false)
  else
    match st with
    | .notFound =>
        match o.mkdir with
        | some k => .error (.mkdirFailed k)
        | none => .ok ([], true)
    | .accessErr k => .error (.accessFailed k)
    | .notDir => .error .notADirectory
    | .dir entries =>
        if o.readDirOk then
          match o.entry with
          | some k => .error (.entryFailed k)
          | none => .ok (entries.filter (fun e => e.isFile && is_supported_icon e.name), false)
        else .error .readDirFailed

/-! ## `icon_delay` -/

inductive IconDelayError
  /-- `bail!("server_icon_delay_min_hours ... cannot be greater than ...")`. -/
  | minGreaterThanMax
  /-- `eyre!("Server icon delay is too large")` from `checked_mul`. -/
  | delayTooLarge
deriving DecidableEq, Repr

def u64Max : Nat := 18446744073709551615

/-- `u64::checked_mul`. -/
def checked_mul (a b : Nat) : Option Nat :=
  if a * b ≤ u64Max then some (a * b) else none

/-- `icon_delay(min_hours, max_hours)`.  The random draw of
`rng.random_range(min_hours..=max_hours)` is made explicit as `draw`; the
result is the wait in seconds, `none` meaning "disabled". -/
def icon_delay (minHours maxHours draw : Nat) : Except IconDelayError (Option Nat) :=
  if maxHours = 0 then .ok none
  else if minHours > maxHours then .error .minGreaterThanMax
  else
    let hours := if minHours = maxHours then minHours else draw
    if hours = 0 then .ok none
    else
      match checked_mul hours 3600 with
      | none => .error .delayTooLarge
      | some seconds => .ok (some seconds)

/-! ### C3 / C4 theorems -/

/-- C3 (counterexample): with `minHours = 0 ≤ maxHours = 1` and `maxHours > 0`,
a drawn value of 0 makes `icon_delay` return "disabled" rather than a duration;
and for `minHours = maxHours = 5124095576030432` (a valid u64) the boundary
case fails with an overflow error instead of returning `min*3600`. -/
theorem c3_counterexample :
    icon_delay 0 1 0 = Except.ok none ∧
    icon_delay 5124095576030432 5124095576030432 0 = Except.error IconDelayError.delayTooLarge := by
  constructor <;> rfl

/-- C3 (amended): for `minHours ≤ maxHours` with `maxHours > 0`, a draw in
`[minHours, maxHours]` and `maxHours*3600` within u64 range, `icon_delay`
either reports "disabled" (only possible when `minHours = 0` and the draw is 0)
or returns a duration `d` with `minHours*3600 ≤ d ≤ maxHours*3600`; and in the
boundary case `0 < minHours = maxHours` it returns exactly `minHours*3600`. -/
theorem c3_delay_bounds_amended (minHours maxHours draw : Nat)
    (hle : minHours ≤ maxHours) (hpos : 0 < maxHours)
    (hd1 : minHours ≤ draw) (hd2 : draw ≤ maxHours)
    (hfit : maxHours * 3600 ≤ u64Max) :
    ((minHours = 0 ∧ draw = 0 ∧ icon_delay minHours maxHours draw = Except.ok none) ∨
      (∃ d, icon_delay minHours maxHours draw = Except.ok (some d) ∧
        minHours * 3600 ≤ d ∧ d ≤ maxHours * 3600)) ∧
    (0 < minHours → minHours = maxHours →
      icon_delay minHours maxHours draw = Except.ok (some (minHours * 3600))) := by
  have hmax0 : maxHours ≠ 0 := Nat.pos_iff_ne_zero.mp hpos
  have hnotgt : ¬ minHours > maxHours := Nat.not_lt.mpr hle
  constructor
  · by_cases heq : minHours = maxHours
    · -- fixed value: minHours = maxHours > 0
      right
      subst heq
      refine ⟨minHours * 3600, ?_, Nat.le_refl _, Nat.le_refl _⟩
      have hmin0 : minHours ≠ 0 := hmax0
      simp [icon_delay, hmax0, hnotgt, hmin0, checked_mul, hfit]
    · -- random draw
      by_cases hz : draw = 0
      · left
        refine ⟨by omega, hz, ?_⟩
        simp [icon_delay, hmax0, hnotgt, heq, hz]
      · right
        refine ⟨draw * 3600, ?_, Nat.mul_le_mul_right _ hd1, Nat.mul_le_mul_right _ hd2⟩
        have hfit' : draw * 3600 ≤ u64Max :=
          Nat.le_trans (Nat.mul_le_mul_right _ hd2) hfit
        simp [icon_delay, hmax0, hnotgt, heq, hz, checked_mul, hfit']
  · intro hminpos heq
    subst heq
    have hmin0 : minHours ≠ 0 := Nat.pos_iff_ne_zero.mp hminpos
    simp [icon_delay, hmax0, hnotgt, hmin0, checked_mul, hfit]

/-- Witness for `c3_delay_bounds_amended` at `minHours = 2`, `maxHours = 4`,
`draw = 3`, and at the boundary `minHours = maxHours = 2`. -/
theorem c3_delay_bounds_amended_witness :
    ((2 = 0 ∧ 3 = 0 ∧ icon_delay 2 4 3 = Except.ok none) ∨
      (∃ d, icon_delay 2 4 3 = Except.ok (some d) ∧ 2 * 3600 ≤ d ∧ d ≤ 4 * 3600)) ∧
    icon_delay 2 2 3 = Except.ok (some (2 * 3600)) :=
  ⟨(c3_delay_bounds_amended 2 4 3 (by decide) (by decide) (by decide) (by decide)
      (by decide)).1,
   (c3_delay_bounds_amended 2 2 2 (by decide) (by decide) (by decide)
      (by decide) (by decide)).2 (by decide) rfl⟩

/-- C4 (counterexample): `minHours = 5 > maxHours = 0`, yet `icon_delay`
returns "disabled" (the `max_hours == 0` check fires first) instead of
failing with a configuration error. -/
theorem c4_counterexample : icon_delay 5 0 0 = Except.ok none := rfl

/-- C4 (amended): for every pair with `maxHours > 0` and
`minHours > maxHours`, `icon_delay` fails with the min-greater-than-max
configuration error. -/
theorem c4_min_gt_max_amended (minHours maxHours draw : Nat)
    (hpos : 0 < maxHours) (hgt : minHours > maxHours) :
    icon_delay minHours maxHours draw = Except.error IconDelayError.minGreaterThanMax := by
  have hmax0 : maxHours ≠ 0 := Nat.pos_iff_ne_zero.mp hpos
  simp only [icon_delay, if_neg hmax0, if_pos hgt]

/-- Witness for `c4_min_gt_max_amended` at the spec's own example `(5, 2)`. -/
theorem c4_min_gt_max_amended_witness :
    icon_delay 5 2 0 = Except.error IconDelayError.minGreaterThanMax :=
  c4_min_gt_max_amended 5 2 0 (by decide) (by decide)

/-! ## Access synchronization state machine (`voice_state_update`)

The handler's decision logic is pure: given the configuration snapshot and
the `(old, new)` voice states it determines which platform calls (permission
grant, forced move, permission revoke) are issued.  Each call is
fire-and-forget in the source (failures are only logged), so the effect list
records the calls made. -/

structure VsConfig where
  guild : Nat
  voice : Nat
  video : Nat
deriving DecidableEq, Repr

structure VoiceState where
  member : Option String
  guild_id : Option Nat
  channel_id : Option Nat
  self_stream : Option Bool
  user_id : Nat
deriving DecidableEq, Repr

inductive VsEffect
  /-- `config.video.create_permission(.., Member(user))` allowing `VIEW_CHANNEL`. -/
  | grant (user : Nat)
  /-- `guild_id.move_member(.., user, config.video)`. -/
  | move (user : Nat)
  /-- `config.video.delete_permission(.., Member(user))`. -/
  | revoke (user : Nat)
deriving DecidableEq, Repr

/-- `[config.voice, config.video].contains(&c)`. -/
def trackedB (cfg : VsConfig) (c : Nat) : Bool :=
  c == cfg.voice || c == cfg.video

/-- The first block of `voice_state_update`: grant on joining the voice
channel, forced move when streaming there. -/
def joinEffects (cfg : VsConfig) (new : VoiceState) : List VsEffect :=
  match new.channel_id with
  | none => []
  | some nc =>
      (if nc = cfg.voice then [VsEffect.grant new.user_id] else []) ++
      (match new.self_stream with
       | some stream => if stream && (nc == cfg.voice) then [VsEffect.move new.user_id] else []
       | none => [])

/-- The second block of `voice_state_update`: revoke when leaving the
tracked channels, unless the new channel is itself tracked. -/
def leaveEffects (cfg : VsConfig) (old : Option VoiceState) (new : VoiceState) : List VsEffect :=
  match old with
  | none => []
  | some o =>
      match o.channel_id with
      | none => []
      | some oc =>
          if trackedB cfg oc then
            match new.channel_id with
            | some nc => if trackedB cfg nc then [] else [VsEffect.revoke new.user_id]
            | none => [VsEffect.revoke new.user_id]
          else []

/-- `voice_state_update(ctx, old, new)`: the guard chain (configuration
present, member present, guild present, guild matches) followed by the two
effect blocks. -/
def voice_state_update (cfgO : Option VsConfig) (old : Option VoiceState) (new : VoiceState) :
    List VsEffect :=
  match cfgO with
  | none => []
  | some cfg =>
      match new.member with
      | none => []
      | some _ =>
          match new.guild_id with
          | none => []
          | some gid =>
              if gid = cfg.guild then joinEffects cfg new ++ leaveEffects cfg old new
              else []

def isGrant : VsEffect → Bool
  | .grant _ => true
  | _ => false

def isRevoke : VsEffect → Bool
  | .revoke _ => true
  | _ => false

def countGrant (l : List VsEffect) : Nat := l.countP isGrant

def countRevoke (l : List VsEffect) : Nat := l.countP isRevoke

lemma countGrant_append (l1 l2 : List VsEffect) :
    countGrant (l1 ++ l2) = countGrant l1 + countGrant l2 := by
  simp [countGrant, List.countP_append]

lemma countRevoke_append (l1 l2 : List VsEffect) :
    countRevoke (l1 ++ l2) = countRevoke l1 + countRevoke l2 := by
  simp [countRevoke, List.countP_append]

lemma countRevoke_join (cfg : VsConfig) (new : VoiceState) :
    countRevoke (joinEffects cfg new) = 0 := by
  unfold joinEffects
  cases new.channel_id with
  | none => rfl
  | some nc =>
      cases new.self_stream with
      | none =>
          by_cases h : nc = cfg.voice <;>
            simp [h, countRevoke, isRevoke, List.countP_cons, List.countP_append]
      | some s =>
          by_cases h : nc = cfg.voice <;> by_cases hs : s = true <;>
            simp [h, hs, countRevoke, isRevoke, List.countP_cons, List.countP_append]

lemma countGrant_leave (cfg : VsConfig) (old : Option VoiceState) (new : VoiceState) :
    countGrant (leaveEffects cfg old new) = 0 := by
  cases old with
  | none => rfl
  | some o =>
      cases hoc : o.channel_id with
      | none => simp [leaveEffects, hoc, countGrant]
      | some oc =>
          cases htr : trackedB cfg oc with
          | false => simp [leaveEffects, hoc, htr, countGrant]
          | true =>
              cases hnc : new.channel_id with
              | none => simp [leaveEffects, hoc, htr, hnc, countGrant, isGrant,
                  List.countP_cons]
              | some nc =>
                  cases htr2 : trackedB cfg nc <;>
                    simp [leaveEffects, hoc, htr, hnc, htr2, countGrant, isGrant,
                      List.countP_cons]

lemma countGrant_join_voice (cfg : VsConfig) (new : VoiceState)
    (h : new.channel_id = some cfg.voice) :
    countGrant (joinEffects cfg new) = 1 := by
  unfold joinEffects
  rw [h]
  cases new.self_stream with
  | none => simp [countGrant, isGrant]
  | some s => by_cases hs : s = true <;> simp [countGrant, isGrant, hs]

lemma countGrant_join_other (cfg : VsConfig) (new : VoiceState) (nc : Nat)
    (h : new.channel_id = some nc) (hne : nc ≠ cfg.voice) :
    countGrant (joinEffects cfg new) = 0 := by
  unfold joinEffects
  rw [h]
  cases new.self_stream with
  | none => simp [countGrant, isGrant, hne]
  | some s => simp [countGrant, isGrant, hne]

lemma countRevoke_leave_tracked_new (cfg : VsConfig) (old : Option VoiceState)
    (new : VoiceState) (nc : Nat) (h : new.channel_id = some nc)
    (htr : trackedB cfg nc = true) :
    countRevoke (leaveEffects cfg old new) = 0 := by
  cases old with
  | none => rfl
  | some o =>
      cases hoc : o.channel_id with
      | none => simp [leaveEffects, hoc, countRevoke]
      | some oc =>
          cases htr' : trackedB cfg oc <;>
            simp [leaveEffects, hoc, htr', h, htr, countRevoke]

lemma countRevoke_leave_untracked_old (cfg : VsConfig) (o : VoiceState)
    (new : VoiceState) (oc : Nat) (h : o.channel_id = some oc)
    (htr : trackedB cfg oc = false) :
    countRevoke (leaveEffects cfg (some o) new) = 0 := by
  simp [leaveEffects, h, htr, countRevoke]

lemma countRevoke_leave_one (cfg : VsConfig) (o : VoiceState) (new : VoiceState)
    (oc : Nat) (hoc : o.channel_id = some oc) (htr : trackedB cfg oc = true)
    (hnew : ∀ nc, new.channel_id = some nc → trackedB cfg nc = false) :
    countRevoke (leaveEffects cfg (some o) new) = 1 := by
  cases hnc : new.channel_id with
  | none => simp [leaveEffects, hoc, htr, hnc, countRevoke, isRevoke, List.countP_cons]
  | some nc =>
      simp [leaveEffects, hoc, htr, hnc, hnew nc hnc, countRevoke, isRevoke,
        List.countP_cons]

lemma vsu_eq (cfg : VsConfig) (old : Option VoiceState) (new : VoiceState)
    (m : String) (hm : new.member = some m) (hg : new.guild_id = some cfg.guild) :
    voice_state_update (some cfg) old new = joinEffects cfg new ++ leaveEffects cfg old new := by
  unfold voice_state_update
  rw [hm, hg]
  simp

lemma trackedB_voice (cfg : VsConfig) : trackedB cfg cfg.voice = true := by
  simp [trackedB]

lemma trackedB_video (cfg : VsConfig) : trackedB cfg cfg.video = true := by
  simp [trackedB]

/-! ### C1 / C8 / C9 theorems -/

/-- C1: for an event of the configured guild with a member present —
(a) a new channel equal to the companion (voice) channel yields exactly one
grant and zero revokes; (b) a tracked-to-tracked transfer yields zero
revokes; (c) a tracked-to-untracked transition yields exactly one revoke;
(d) hence `(Outside → Companion)` then `(Companion → Restricted)` yields
exactly one grant and zero revokes overall. -/
theorem c1_access_transitions :
    (∀ (cfg : VsConfig) (old : Option VoiceState) (new : VoiceState) (m : String),
       new.member = some m → new.guild_id = some cfg.guild →
       new.channel_id = some cfg.voice →
       countGrant (voice_state_update (some cfg) old new) = 1 ∧
       countRevoke (voice_state_update (some cfg) old new) = 0) ∧
    (∀ (cfg : VsConfig) (o new : VoiceState) (m : String) (oc nc : Nat),
       new.member = some m → new.guild_id = some cfg.guild →
       o.channel_id = some oc → trackedB cfg oc = true →
       new.channel_id = some nc → trackedB cfg nc = true →
       countRevoke (voice_state_update (some cfg) (some o) new) = 0) ∧
    (∀ (cfg : VsConfig) (o new : VoiceState) (m : String) (oc : Nat),
       new.member = some m → new.guild_id = some cfg.guild →
       o.channel_id = some oc → trackedB cfg oc = true →
       (∀ nc, new.channel_id = some nc → trackedB cfg nc = false) →
       countRevoke (voice_state_update (some cfg) (some o) new) = 1) ∧
    (∀ (cfg : VsConfig) (old1 : Option VoiceState) (m : String) (u : Nat)
       (st1 st2 : Option Bool),
       cfg.voice ≠ cfg.video →
       (∀ o oc, old1 = some o → o.channel_id = some oc → trackedB cfg oc = false) →
       countGrant (voice_state_update (some cfg) old1
           ⟨some m, some cfg.guild, some cfg.voice, st1, u⟩) +
         countGrant (voice_state_update (some cfg)
           (some ⟨some m, some cfg.guild, some cfg.voice, st1, u⟩)
           ⟨some m, some cfg.guild, some cfg.video, st2, u⟩) = 1 ∧
       countRevoke (voice_state_update (some cfg) old1
           ⟨some m, some cfg.guild, some cfg.voice, st1, u⟩) +
         countRevoke (voice_state_update (some cfg)
           (some ⟨some m, some cfg.guild, some cfg.voice, st1, u⟩)
           ⟨some m, some cfg.guild, some cfg.video, st2, u⟩) = 0) := by
  refine ⟨?_, ?_, ?_, ?_⟩
  · intro cfg old new m hm hg hc
    rw [vsu_eq cfg old new m hm hg]
    constructor
    · rw [countGrant_append, countGrant_join_voice cfg new hc, countGrant_leave]
    · rw [countRevoke_append, countRevoke_join,
        countRevoke_leave_tracked_new cfg old new cfg.voice hc (trackedB_voice cfg)]
  · intro cfg o new m oc nc hm hg hoc htroc hnc htrnc
    rw [vsu_eq cfg (some o) new m hm hg, countRevoke_append, countRevoke_join,
      countRevoke_leave_tracked_new cfg (some o) new nc hnc htrnc]
  · intro cfg o new m oc hm hg hoc htroc hun
    rw [vsu_eq cfg (some o) new m hm hg, countRevoke_append, countRevoke_join,
      countRevoke_leave_one cfg o new oc hoc htroc hun]
  · intro cfg old1 m u st1 st2 hvv hun
    have hm1 : (⟨some m, some cfg.guild, some cfg.voice, st1, u⟩ : VoiceState).member
        = some m := rfl
    have hm2 : (⟨some m, some cfg.guild, some cfg.video, st2, u⟩ : VoiceState).member
        = some m := rfl
    rw [vsu_eq cfg old1 _ m hm1 rfl, vsu_eq cfg _ _ m hm2 rfl]
    have hleave1 : countRevoke (leaveEffects cfg old1
        ⟨some m, some cfg.guild, some cfg.voice, st1, u⟩) = 0 := by
      cases old1 with
      | none => rfl
      | some o =>
          cases hoc : o.channel_id with
          | none => simp [leaveEffects, hoc, countRevoke]
          | some oc =>
              exact countRevoke_leave_untracked_old cfg o _ oc hoc (hun o oc rfl hoc)
    constructor
    · rw [countGrant_append, countGrant_append,
        countGrant_join_voice cfg _ rfl, countGrant_leave, countGrant_leave,
        countGrant_join_other cfg _ cfg.video rfl (fun h => hvv h.symm)]
    · rw [countRevoke_append, countRevoke_append, countRevoke_join, countRevoke_join,
        hleave1,
        countRevoke_leave_tracked_new cfg _ _ cfg.video rfl (trackedB_video cfg)]

/-- Witness for `c1_access_transitions` with guild 1, voice channel 2,
video channel 3, user 7: joining the voice channel from outside, a
voice-to-video transfer, a video-to-elsewhere leave, and the two-event
sequence. -/
theorem c1_access_transitions_witness :
    (countGrant (voice_state_update (some ⟨1, 2, 3⟩) none
        ⟨some "m", some 1, some 2, none, 7⟩) = 1 ∧
      countRevoke (voice_state_update (some ⟨1, 2, 3⟩) none
        ⟨some "m", some 1, some 2, none, 7⟩) = 0) ∧
    countRevoke (voice_state_update (some ⟨1, 2, 3⟩)
        (some ⟨some "m", some 1, some 2, none, 7⟩)
        ⟨some "m", some 1, some 3, none, 7⟩) = 0 ∧
    countRevoke (voice_state_update (some ⟨1, 2, 3⟩)
        (some ⟨some "m", some 1, some 3, none, 7⟩)
        ⟨some "m", some 1, some 9, none, 7⟩) = 1 ∧
    (countGrant (voice_state_update (some ⟨1, 2, 3⟩) none
          ⟨some "m", some 1, some 2, none, 7⟩) +
        countGrant (voice_state_update (some ⟨1, 2, 3⟩)
          (some ⟨some "m", some 1, some 2, none, 7⟩)
          ⟨some "m", some 1, some 3, none, 7⟩) = 1 ∧
      countRevoke (voice_state_update (some ⟨1, 2, 3⟩) none
          ⟨some "m", some 1, some 2, none, 7⟩) +
        countRevoke (voice_state_update (some ⟨1, 2, 3⟩)
          (some ⟨some "m", some 1, some 2, none, 7⟩)
          ⟨some "m", some 1, some 3, none, 7⟩) = 0) := by
  refine ⟨?_, ?_, ?_, ?_⟩
  · exact c1_access_transitions.1 ⟨1, 2, 3⟩ none _ "m" rfl rfl rfl
  · exact c1_access_transitions.2.1 ⟨1, 2, 3⟩ _ _ "m" 2 3 rfl rfl rfl (by decide) rfl
      (by decide)
  · refine c1_access_transitions.2.2.1 ⟨1, 2, 3⟩ _ _ "m" 3 rfl rfl rfl (by decide) ?_
    intro nc h
    cases h
    decide
  · exact c1_access_transitions.2.2.2 ⟨1, 2, 3⟩ none "m" 7 none none (by decide)
      (fun o oc h => nomatch h)

/-- C8: a presence event missing a member, missing a guild identifier, or
carrying a guild identifier different from the configured guild produces no
platform calls at all. -/
theorem c8_discard_unscoped_events :
    ∀ (cfg : VsConfig) (old : Option VoiceState) (new : VoiceState),
      (new.member = none ∨ new.guild_id = none ∨
        (∃ g, new.guild_id = some g ∧ g ≠ cfg.guild)) →
      voice_state_update (some cfg) old new = [] := by
  intro cfg old new h
  rcases h with hm | hg | ⟨g, hg, hne⟩
  · simp [voice_state_update, hm]
  · cases hM : new.member <;> simp [voice_state_update, hM, hg]
  · cases hM : new.member <;> simp [voice_state_update, hM, hg, hne]

/-- Witness for `c8_discard_unscoped_events`: an event with no member, an
event with no guild, and an event for a different guild, all with
configuration guild 1, voice 2, video 3. -/
theorem c8_discard_unscoped_events_witness :
    voice_state_update (some ⟨1, 2, 3⟩) none ⟨none, some 1, some 2, none, 7⟩ = [] ∧
    voice_state_update (some ⟨1, 2, 3⟩) none ⟨some "m", none, some 2, none, 7⟩ = [] ∧
    voice_state_update (some ⟨1, 2, 3⟩) none ⟨some "m", some 4, some 2, none, 7⟩ = [] :=
  ⟨c8_discard_unscoped_events ⟨1, 2, 3⟩ none _ (Or.inl rfl),
   c8_discard_unscoped_events ⟨1, 2, 3⟩ none _ (Or.inr (Or.inl rfl)),
   c8_discard_unscoped_events ⟨1, 2, 3⟩ none _ (Or.inr (Or.inr ⟨4, rfl, by decide⟩))⟩

/-- C9: within a single presence event, a grant and a revoke are never both
issued — every event has zero grants or zero revokes. -/
theorem c9_grant_revoke_exclusive :
    ∀ (cfgO : Option VsConfig) (old : Option VoiceState) (new : VoiceState),
      countGrant (voice_state_update cfgO old new) = 0 ∨
      countRevoke (voice_state_update cfgO old new) = 0 := by
  intro cfgO old new
  cases cfgO with
  | none => left; rfl
  | some cfg =>
      cases hM : new.member with
      | none => left; simp [voice_state_update, hM, countGrant]
      | some m =>
          cases hG : new.guild_id with
          | none => left; simp [voice_state_update, hM, hG, countGrant]
          | some g =>
              by_cases hg : g = cfg.guild
              · subst hg
                rw [vsu_eq cfg old new m hM hG]
                cases hnc : new.channel_id with
                | none =>
                    left
                    rw [countGrant_append, countGrant_leave]
                    simp [joinEffects, hnc, countGrant]
                | some nc =>
                    by_cases hv : nc = cfg.voice
                    · right
                      rw [countRevoke_append, countRevoke_join,
                        countRevoke_leave_tracked_new cfg old new nc hnc
                          (by rw [hv]; exact trackedB_voice cfg)]
                    · left
                      rw [countGrant_append, countGrant_leave,
                        countGrant_join_other cfg new nc hnc hv]
              · left; simp [voice_state_update, hM, hG, hg, countGrant]

/-! ## `move_icon_file`

Pools are the entry lists of the two directories.  The file-system calls of
`move_icon_file` are made explicit: `fs::create_dir_all` on the destination
parent, `fs::remove_file` on an existing destination, `fs::rename`, and the
`fs::copy` + `fs::remove_file(source)` fallback.  File names inside one real
directory are unique, so erasing by name models deleting the path. -/

structure MoveOracles where
  /-- `fs::create_dir_all(parent)?` (`none` = success). -/
  mkdir : Option IoKind
  /-- `fs::remove_file(&destination)?` when the destination exists. -/
  removeDest : Option IoKind
  /-- `fs::rename(source, &destination)` succeeded. -/
  renameOk : Bool
  /-- `fs::copy(source, &destination)` succeeded. -/
  copyOk : Bool
  /-- `fs::remove_file(source)` after a successful copy succeeded. -/
  removeSrcOk : Bool
deriving DecidableEq, Repr

/-- The rename-or-copy step of `move_icon_file`, after the destination slot
has been cleared: both success paths leave the file under its name in the
target pool and gone from the source pool. -/
def moveAttempt (src : DirEntry) (srcPool dstPool : List DirEntry) (o : MoveOracles) :
    Except PoolError (List DirEntry × List DirEntry) :=
  if o.renameOk then
    .ok (srcPool.filter (fun e => !(e.name == src.name)),
      dstPool.filter (fun e => !(e.name == src.name)) ++ [src])
  else if o.copyOk && o.removeSrcOk then
    .ok (srcPool.filter (fun e => !(e.name == src.name)),
      dstPool.filter (fun e => !(e.name == src.name)) ++ [src])
  else .error .moveFailed

/-- `move_icon_file(source, target_dir)`.  The `icon_filename` step always
succeeds here because entries produced by `read_dir` carry a file name. -/
def move_icon_file (src : DirEntry) (srcPool dstPool : List DirEntry) (o : MoveOracles) :
    Except PoolError (List DirEntry × List DirEntry) :=
  match o.mkdir with
  | some k => .error (.mkdirFailed k)
  | none =>
      if dstPool.any (fun e => e.name == src.name) then
        match o.removeDest with
        | some k => .error (.removeFailed k)
        | none => moveAttempt src srcPool dstPool o
      else moveAttempt src srcPool dstPool o

/-! ## `recycle_used_icons` -/

/-- The move loop of `recycle_used_icons`: relocates each listed used icon
into the unused pool, accumulating the destinations, and propagates the
first failure. -/
def recycleMoves (o : MoveOracles) :
    List DirEntry → List DirEntry → List DirEntry → Except PoolError (List DirEntry)
  | [], _, moved => .ok moved
  | p :: rest, unusedPool, moved =>
      match move_icon_file p (p :: rest) unusedPool o with
      | .error e => .error e
      | .ok (_, dst') => recycleMoves o rest dst' (moved ++ [p])

/-- `recycle_used_icons(unused_dir, used_dir)`: lists the used pool (which
may create the used directory, reported in the `Bool`), returns empty if it
is empty, otherwise moves every used icon into the unused pool. -/
def recycle_used_icons (unusedPool : List DirEntry) (usedPathEmpty : Bool)
    (usedDir : PathState) (usedLoad : LoadOracles) (o : MoveOracles) :
    Except PoolError (List DirEntry × Bool) :=
  match load_icon_paths usedPathEmpty usedDir usedLoad with
  | .error e => .error e
  | .ok (usedPaths, created) =>
      if usedPaths.isEmpty then .ok ([], created)
      else
        match recycleMoves o usedPaths unusedPool [] with
        | .error e => .error e
        | .ok moved => .ok (moved, created)

/-! ## `randomize_server_icon` -/

/-- Observable side effects of one rotation attempt, in program order. -/
inductive RotEffect
  /-- the unused directory was created by `load_icon_paths`. -/
  | mkdirUnused
  /-- the used directory was created while listing it for recycling. -/
  | mkdirUsed
  /-- a used icon was moved back into the unused pool by recycling. -/
  | recycleMove (name : String)
  /-- `guild_id.edit` was called with this icon (the upload attempt). -/
  | upload (name : String)
  /-- the selected icon was moved into the used pool after a successful upload. -/
  | relocate (name : String)
deriving DecidableEq, Repr

/-- All inputs of one `randomize_server_icon` run: the configuration paths,
the observed directory states, and the outcomes of the random draw and of
every fallible external call. -/
structure RotEnv where
  /-- `config.server_icons_unused.as_os_str().is_empty()`. -/
  unusedPathEmpty : Bool
  /-- `config.server_icons_used.as_os_str().is_empty()`. -/
  usedPathEmpty : Bool
  unusedDir : PathState
  usedDir : PathState
  unusedLoad : LoadOracles
  usedLoad : LoadOracles
  moveOr : MoveOracles
  /-- the random index drawn by `icon_paths.choose(&mut rng)`. -/
  chooseIdx : Nat
  /-- `CreateAttachment::path(&selected_icon)` succeeded. -/
  attachOk : Bool
  /-- `guild_id.edit(&ctx.http, builder)` (the icon upload) succeeded. -/
  uploadOk : Bool
deriving DecidableEq, Repr

def initialEffects (created0 : Bool) : List RotEffect :=
  if created0 then [RotEffect.mkdirUnused] else []

def recycleEffects (created0 createdUsed : Bool) (moved : List DirEntry) : List RotEffect :=
  initialEffects created0 ++
    (if createdUsed then [RotEffect.mkdirUsed] else []) ++
    moved.map (fun m => RotEffect.recycleMove m.name)

/-- The used pool remaining after recycling moved the listed icons out. -/
def usedPoolAfterRecycle (usedDir : PathState) (moved : List DirEntry) : List DirEntry :=
  (dirEntries usedDir).filter (fun e => !(moved.any (fun m => m.name == e.name)))

/-- The tail of `randomize_server_icon` from the final emptiness check on:
select a random candidate, build the attachment, upload, and only on upload
success move the candidate into the used pool. -/
def selectAndApply (env : RotEnv) (effs : List RotEffect)
    (iconPaths usedPool : List DirEntry) : List RotEffect × Except PoolError Unit :=
  match iconPaths with
  | [] => (effs, .ok ())
  | p :: rest =>
      let selected := (p :: rest).getD (env.chooseIdx % (p :: rest).length) p
      if env.attachOk then
        let effs1 := effs ++ [RotEffect.upload selected.name]
        if env.uploadOk then
          match move_icon_file selected (p :: rest) usedPool env.moveOr with
          | .error e => (effs1, .error e)
          | .ok _ => (effs1 ++ [RotEffect.relocate selected.name], .ok ())
        else (effs1, .error .uploadFailed)
      else (effs, .error .attachFailed)

/-- `randomize_server_icon(ctx)`: returns the side effects performed (in
order) and the overall result.  Permission-denied errors from listing or
recycling are downgraded to a logged warning (`Ok` with no further work),
exactly as in the source. -/
def randomize_server_icon (env : RotEnv) : List RotEffect × Except PoolError Unit :=
  if env.unusedPathEmpty then ([], .ok ())
  else
    match load_icon_paths env.unusedPathEmpty env.unusedDir env.unusedLoad with
    | .error e => if errIsDeniedIo e then ([], .ok ()) else ([], .error e)
    | .ok (paths0, created0) =>
        if paths0.isEmpty then
          match recycle_used_icons (dirEntries env.unusedDir) env.usedPathEmpty
              env.usedDir env.usedLoad env.moveOr with
          | .error e =>
              if errIsDeniedIo e then (initialEffects created0, .ok ())
              else (initialEffects created0, .error e)
          | .ok (moved, createdUsed) =>
              selectAndApply env (recycleEffects created0 createdUsed moved) moved
                (usedPoolAfterRecycle env.usedDir moved)
        else
          selectAndApply env (initialEffects created0) paths0 (dirEntries env.usedDir)

/-! ## The scheduler loop body (`ready`) -/

inductive LoopStep
  | keepRunning
  | halt
deriving DecidableEq, Repr

/-- One iteration of the icon randomizer loop spawned in `ready`: a delay
computation error or a "disabled" delay breaks the loop; otherwise the loop
sleeps, runs one rotation, logs a rotation failure (the `Bool`), and
continues regardless of the rotation outcome. -/
def schedulerStep (delay : Except IconDelayError (Option Nat))
    (rotation : List RotEffect × Except PoolError Unit) : LoopStep × Bool :=
  match delay with
  | .error _ => (.halt, true)
  | .ok none => (.halt, false)
  | .ok (some _) =>
      match rotation.2 with
      | .error _ => (.keepRunning, true)
      | .ok _ => (.keepRunning, false)

/-! ### C2 / C5 theorems -/

lemma relocate_notin_initialEffects (b : Bool) (n : String) :
    RotEffect.relocate n ∉ initialEffects b := by
  cases b <;> simp [initialEffects]

lemma upload_notin_initialEffects (b : Bool) (n : String) :
    RotEffect.upload n ∉ initialEffects b := by
  cases b <;> simp [initialEffects]

lemma relocate_notin_recycleEffects (b c : Bool) (moved : List DirEntry) (n : String) :
    RotEffect.relocate n ∉ recycleEffects b c moved := by
  cases b <;> cases c <;> simp [recycleEffects, initialEffects]

lemma upload_notin_recycleEffects (b c : Bool) (moved : List DirEntry) (n : String) :
    RotEffect.upload n ∉ recycleEffects b c moved := by
  cases b <;> cases c <;> simp [recycleEffects, initialEffects]

lemma selectAndApply_uploadFail (env : RotEnv) (effs : List RotEffect)
    (iconPaths usedPool : List DirEntry) (hu : env.uploadOk = false) :
    (∀ n, RotEffect.relocate n ∈ (selectAndApply env effs iconPaths usedPool).1 →
        RotEffect.relocate n ∈ effs) ∧
    (∀ n, RotEffect.upload n ∉ effs →
        RotEffect.upload n ∈ (selectAndApply env effs iconPaths usedPool).1 →
        (selectAndApply env effs iconPaths usedPool).2 =
          Except.error PoolError.uploadFailed) := by
  cases iconPaths with
  | nil => exact ⟨fun n h => h, fun n hn h => absurd h hn⟩
  | cons p rest =>
      cases ha : env.attachOk with
      | false =>
          constructor
          · intro n h
            simpa [selectAndApply, ha] using h
          · intro n hn h
            exact absurd (by simpa [selectAndApply, ha] using h) hn
      | true =>
          constructor
          · intro n h
            simp [selectAndApply, ha, hu] at h
            exact h
          · intro n hn h
            simp [selectAndApply, ha, hu]

lemma randomize_uploadFail (env : RotEnv) (hu : env.uploadOk = false) :
    (∀ n, RotEffect.relocate n ∉ (randomize_server_icon env).1) ∧
    (∀ n, RotEffect.upload n ∈ (randomize_server_icon env).1 →
        (randomize_server_icon env).2 = Except.error PoolError.uploadFailed) := by
  unfold randomize_server_icon
  by_cases hpe : env.unusedPathEmpty = true
  · simp [hpe]
  · rw [if_neg hpe]
    cases hl : load_icon_paths env.unusedPathEmpty env.unusedDir env.unusedLoad with
    | error e => cases hd : errIsDeniedIo e <;> simp [hd]
    | ok pr =>
        obtain ⟨paths0, created0⟩ := pr
        dsimp only
        by_cases hE : paths0.isEmpty = true
        · rw [if_pos hE]
          cases hr : recycle_used_icons (dirEntries env.unusedDir) env.usedPathEmpty
              env.usedDir env.usedLoad env.moveOr with
          | error e => cases hd : errIsDeniedIo e <;>
              simp [hd, relocate_notin_initialEffects, upload_notin_initialEffects]
          | ok pr2 =>
              obtain ⟨moved, createdUsed⟩ := pr2
              refine ⟨fun n h => ?_, fun n h => ?_⟩
              · exact relocate_notin_recycleEffects created0 createdUsed moved n
                  ((selectAndApply_uploadFail env _ _ _ hu).1 n h)
              · exact (selectAndApply_uploadFail env _ _ _ hu).2 n
                  (upload_notin_recycleEffects created0 createdUsed moved n) h
        · rw [if_neg hE]
          refine ⟨fun n h => ?_, fun n h => ?_⟩
          · exact relocate_notin_initialEffects created0 n
              ((selectAndApply_uploadFail env _ _ _ hu).1 n h)
          · exact (selectAndApply_uploadFail env _ _ _ hu).2 n
              (upload_notin_initialEffects created0 n) h

lemma schedulerStep_rotation_error (d : Nat)
    (rot : List RotEffect × Except PoolError Unit) (e : PoolError)
    (h : rot.2 = Except.error e) :
    schedulerStep (Except.ok (some d)) rot = (LoopStep.keepRunning, true) := by
  simp [schedulerStep, h]

/-- C2: the selected candidate is relocated into the used (spent) pool only
when the upload succeeded; when the upload fails (for an attempt that
reached the upload call), no relocation effect is performed, the rotation
returns the upload error (which `ready` merely logs), and the scheduler loop
continues. -/
theorem c2_upload_failure_semantics :
    (∀ (env : RotEnv) (n : String),
        RotEffect.relocate n ∈ (randomize_server_icon env).1 → env.uploadOk = true) ∧
    (∀ env : RotEnv, env.uploadOk = false →
        (∀ n, RotEffect.relocate n ∉ (randomize_server_icon env).1) ∧
        (∀ n, RotEffect.upload n ∈ (randomize_server_icon env).1 →
            (randomize_server_icon env).2 = Except.error PoolError.uploadFailed ∧
            ∀ d, schedulerStep (Except.ok (some d)) (randomize_server_icon env) =
              (LoopStep.keepRunning, true))) := by
  constructor
  · intro env n h
    cases hu : env.uploadOk with
    | true => rfl
    | false => exact absurd h ((randomize_uploadFail env hu).1 n)
  · intro env hu
    refine ⟨(randomize_uploadFail env hu).1, fun n h => ?_⟩
    have he := (randomize_uploadFail env hu).2 n h
    exact ⟨he, fun d => schedulerStep_rotation_error d _ _ he⟩

/-- A run in which everything works except the icon upload: one candidate
`a.png` in the unused pool, clean directories and oracles. -/
def envUploadFail : RotEnv :=
  ⟨false, false, PathState.dir [⟨"a.png", true, 0⟩], PathState.dir [],
    ⟨none, true, none⟩, ⟨none, true, none⟩, ⟨none, none, true, true, true⟩, 0, true, false⟩

/-- Witness for `c2_upload_failure_semantics`: in `envUploadFail` the upload
of `a.png` is attempted, the run reports the upload failure, no relocation
happens, and the scheduler keeps running. -/
theorem c2_upload_failure_semantics_witness :
    RotEffect.upload "a.png" ∈ (randomize_server_icon envUploadFail).1 ∧
    (randomize_server_icon envUploadFail).2 = Except.error PoolError.uploadFailed ∧
    RotEffect.relocate "a.png" ∉ (randomize_server_icon envUploadFail).1 ∧
    schedulerStep (Except.ok (some 3600)) (randomize_server_icon envUploadFail) =
      (LoopStep.keepRunning, true) := by
  have hm : RotEffect.upload "a.png" ∈ (randomize_server_icon envUploadFail).1 := by
    decide
  exact ⟨hm, ((c2_upload_failure_semantics.2 envUploadFail rfl).2 "a.png" hm).1,
    (c2_upload_failure_semantics.2 envUploadFail rfl).1 "a.png",
    ((c2_upload_failure_semantics.2 envUploadFail rfl).2 "a.png" hm).2 3600⟩

/-- A run with the used (spent) pool path unset but the unused pool path
set and holding one candidate; every external call succeeds. -/
def envUsedPathUnset : RotEnv :=
  ⟨false, true, PathState.dir [⟨"a.png", true, 0⟩], PathState.dir [],
    ⟨none, true, none⟩, ⟨none, true, none⟩, ⟨none, none, true, true, true⟩, 0, true, true⟩

/-- C5 (counterexample): with the spent-icon-pool path unset
(`usedPathEmpty = true`), rotation is not disabled — the run still uploads
`a.png` and relocates it.  The early-return check in the source is on the
available (unused) pool path, not the spent one. -/
theorem c5_counterexample :
    envUsedPathUnset.usedPathEmpty = true ∧
    RotEffect.upload "a.png" ∈ (randomize_server_icon envUsedPathUnset).1 ∧
    RotEffect.relocate "a.png" ∈ (randomize_server_icon envUsedPathUnset).1 := by
  refine ⟨rfl, ?_, ?_⟩ <;> decide

/-- C5 (amended): it is the available-icon-pool (unused) directory path
whose absence disables rotation: `randomize_server_icon` then performs no
side effect at all and returns success. -/
theorem c5_rotation_disabled_amended :
    ∀ env : RotEnv, env.unusedPathEmpty = true →
      randomize_server_icon env = ([], Except.ok ()) := by
  intro env h
  simp [randomize_server_icon, h]

/-- A run with the available (unused) pool path unset. -/
def envUnusedPathUnset : RotEnv :=
  ⟨true, false, PathState.dir [⟨"a.png", true, 0⟩], PathState.dir [],
    ⟨none, true, none⟩, ⟨none, true, none⟩, ⟨none, none, true, true, true⟩, 0, true, true⟩

/-- Witness for `c5_rotation_disabled_amended`. -/
theorem c5_rotation_disabled_amended_witness :
    randomize_server_icon envUnusedPathUnset = ([], Except.ok ()) :=
  c5_rotation_disabled_amended envUnusedPathUnset rfl

/-! ### C6 theorem -/

lemma is_supported_icon_iff (nm : String) :
    is_supported_icon nm = true ↔
      ∃ ext, rustExtension nm = some ext ∧
        supportedExtensions.contains (asciiLower ext) = true := by
  unfold is_supported_icon
  cases h : rustExtension nm <;> simp [h]

/-- C6: `load_icon_paths` returns an empty list for an unset path; creates
the directory and returns an empty list when the directory does not exist
(given the creation succeeds); fails with the not-a-directory configuration
error when the path exists but is not a directory; and otherwise returns
exactly the files directly inside whose extension, lowercased ASCII-wise,
is one of png, jpg, jpeg, gif, webp. -/
theorem c6_list_candidates :
    (∀ (st : PathState) (o : LoadOracles),
        load_icon_paths true st o = Except.ok ([], false)) ∧
    (∀ o : LoadOracles, o.mkdir = none →
        load_icon_paths false PathState.notFound o = Except.ok ([], true)) ∧
    (∀ o : LoadOracles,
        load_icon_paths false PathState.notDir o = Except.error PoolError.notADirectory) ∧
    (∀ (entries : List DirEntry) (o : LoadOracles),
        o.readDirOk = true → o.entry = none →
        ∃ ps, load_icon_paths false (PathState.dir entries) o = Except.ok (ps, false) ∧
          ∀ e, e ∈ ps ↔ (e ∈ entries ∧ e.isFile = true ∧
            ∃ ext, rustExtension e.name = some ext ∧
              supportedExtensions.contains (asciiLower ext) = true)) := by
  refine ⟨fun st o => rfl, fun o h => by simp [load_icon_paths, h],
    fun o => rfl, fun entries o h1 h2 => ?_⟩
  refine ⟨entries.filter (fun e => e.isFile && is_supported_icon e.name),
    by simp [load_icon_paths, h1, h2], fun e => ?_⟩
  simp [List.mem_filter, Bool.and_eq_true, is_supported_icon_iff, and_assoc]

/-- Witness for `c6_list_candidates`: unset path; missing directory with a
successful creation; a non-directory path; and a directory holding an
uppercase-extension image `A.PNG`, a text file and a subdirectory. -/
theorem c6_list_candidates_witness :
    load_icon_paths true PathState.notFound ⟨none, true, none⟩ = Except.ok ([], false) ∧
    load_icon_paths false PathState.notFound ⟨none, true, none⟩ = Except.ok ([], true) ∧
    load_icon_paths false PathState.notDir ⟨none, true, none⟩ =
      Except.error PoolError.notADirectory ∧
    ∃ ps, load_icon_paths false
        (PathState.dir [⟨"A.PNG", true, 1⟩, ⟨"b.txt", true, 2⟩, ⟨"sub", false, 3⟩])
        ⟨none, true, none⟩ = Except.ok (ps, false) ∧
      ∀ e, e ∈ ps ↔
        (e ∈ [(⟨"A.PNG", true, 1⟩ : DirEntry), ⟨"b.txt", true, 2⟩, ⟨"sub", false, 3⟩] ∧
          e.isFile = true ∧
          ∃ ext, rustExtension e.name = some ext ∧
            supportedExtensions.contains (asciiLower ext) = true) :=
  ⟨c6_list_candidates.1 PathState.notFound ⟨none, true, none⟩,
   c6_list_candidates.2.1 ⟨none, true, none⟩ rfl,
   c6_list_candidates.2.2.1 ⟨none, true, none⟩,
   c6_list_candidates.2.2.2 _ ⟨none, true, none⟩ rfl rfl⟩

/-! ### C7 theorem -/

lemma move_eq_attempt (src : DirEntry) (srcPool dstPool : List DirEntry)
    (o : MoveOracles) (hm : o.mkdir = none) (hr : o.removeDest = none) :
    move_icon_file src srcPool dstPool o = moveAttempt src srcPool dstPool o := by
  unfold move_icon_file
  rw [hm]
  dsimp only
  split
  · rw [hr]
  · rfl

lemma moveAttempt_ok (src : DirEntry) (srcPool dstPool : List DirEntry)
    (o : MoveOracles)
    (hsucc : o.renameOk = true ∨ (o.copyOk = true ∧ o.removeSrcOk = true)) :
    moveAttempt src srcPool dstPool o =
      Except.ok (srcPool.filter (fun e => !(e.name == src.name)),
        dstPool.filter (fun e => !(e.name == src.name)) ++ [src]) := by
  rcases hsucc with h | ⟨h1, h2⟩
  · simp [moveAttempt, h]
  · cases hre : o.renameOk <;> simp [moveAttempt, hre, h1, h2]

/-- C7: given the preliminary steps succeed (destination directory ensured,
an existing same-name destination deleted), relocation succeeds whenever the
rename succeeds or the copy-then-delete-source fallback fully succeeds; the
moved file is then gone from the source pool, present in the target pool
under the same name with identical content (replacing any previous same-name
file), and all other files of both pools are kept; and it fails exactly when
the rename fails and the fallback does not fully succeed. -/
theorem c7_relocate_roundtrip :
    (∀ (src : DirEntry) (srcPool dstPool : List DirEntry) (o : MoveOracles),
        o.mkdir = none → o.removeDest = none →
        (o.renameOk = true ∨ (o.copyOk = true ∧ o.removeSrcOk = true)) →
        ∃ srcAfter dstAfter,
          move_icon_file src srcPool dstPool o = Except.ok (srcAfter, dstAfter) ∧
          (∀ e, e ∈ srcAfter → e.name ≠ src.name) ∧
          src ∈ dstAfter ∧
          (∀ e, e ∈ dstAfter → e.name = src.name → e = src) ∧
          (∀ e, e ∈ srcPool → e.name ≠ src.name → e ∈ srcAfter) ∧
          (∀ e, e ∈ dstPool → e.name ≠ src.name → e ∈ dstAfter)) ∧
    (∀ (src : DirEntry) (srcPool dstPool : List DirEntry) (o : MoveOracles),
        o.mkdir = none → o.removeDest = none →
        ((∃ e, move_icon_file src srcPool dstPool o = Except.error e) ↔
          (o.renameOk = false ∧ (o.copyOk = false ∨ o.removeSrcOk = false)))) := by
  constructor
  · intro src srcPool dstPool o hm hr hsucc
    rw [move_eq_attempt src srcPool dstPool o hm hr,
      moveAttempt_ok src srcPool dstPool o hsucc]
    refine ⟨_, _, rfl, ?_, ?_, ?_, ?_, ?_⟩
    · intro e he
      have := (List.mem_filter.mp he).2
      simpa using this
    · simp
    · intro e he hn
      rcases List.mem_append.mp he with h1 | h1
      · exact absurd hn (by simpa using (List.mem_filter.mp h1).2)
      · simpa using h1
    · intro e he hn
      exact List.mem_filter.mpr ⟨he, by simpa using hn⟩
    · intro e he hn
      exact List.mem_append.mpr (Or.inl (List.mem_filter.mpr ⟨he, by simpa using hn⟩))
  · intro src srcPool dstPool o hm hr
    rw [move_eq_attempt src srcPool dstPool o hm hr]
    cases hre : o.renameOk <;> cases hc : o.copyOk <;> cases hrs : o.removeSrcOk <;>
      simp [moveAttempt, hre, hc, hrs]

/-- Witness for `c7_relocate_roundtrip`: moving `a.png` (content 5) into a
pool already holding an older `a.png` (content 9) with a working rename; and
the failure condition for a run whose rename and copy both fail. -/
theorem c7_relocate_roundtrip_witness :
    (∃ srcAfter dstAfter,
        move_icon_file ⟨"a.png", true, 5⟩ [⟨"a.png", true, 5⟩] [⟨"a.png", true, 9⟩]
            ⟨none, none, true, false, false⟩ = Except.ok (srcAfter, dstAfter) ∧
        (∀ e, e ∈ srcAfter → e.name ≠ DirEntry.name ⟨"a.png", true, 5⟩) ∧
        (⟨"a.png", true, 5⟩ : DirEntry) ∈ dstAfter ∧
        (∀ e, e ∈ dstAfter → e.name = DirEntry.name ⟨"a.png", true, 5⟩ →
          e = ⟨"a.png", true, 5⟩) ∧
        (∀ e, e ∈ [(⟨"a.png", true, 5⟩ : DirEntry)] →
          e.name ≠ DirEntry.name ⟨"a.png", true, 5⟩ → e ∈ srcAfter) ∧
        (∀ e, e ∈ [(⟨"a.png", true, 9⟩ : DirEntry)] →
          e.name ≠ DirEntry.name ⟨"a.png", true, 5⟩ → e ∈ dstAfter)) ∧
    ((∃ e, move_icon_file ⟨"a.png", true, 5⟩ [⟨"a.png", true, 5⟩] []
        ⟨none, none, false, false, true⟩ = Except.error e) ↔
      (false = false ∧ (false = false ∨ true = false))) :=
  ⟨c7_relocate_roundtrip.1 ⟨"a.png", true, 5⟩ [⟨"a.png", true, 5⟩] [⟨"a.png", true, 9⟩]
      ⟨none, none, true, false, false⟩ rfl rfl (Or.inl rfl),
   c7_relocate_roundtrip.2 ⟨"a.png", true, 5⟩ [⟨"a.png", true, 5⟩] []
      ⟨none, none, false, false, true⟩ rfl rfl⟩

/-! ## `handle_alerts_command` -/

inductive AlertsError
  /-- the `?` on `guild_id.member(&ctx.http, command.user.id)`. -/
  | fetchFailed
  /-- the `?` on `command.create_response(..)`. -/
  | sendFailed
deriving DecidableEq, Repr

/-- All inputs of one `handle_alerts_command` run: the configuration lookup,
the invoking command's guild, the configured guild and role (0 is the
unconfigured sentinel), the member-fetch outcome with the member's roles,
and the outcomes of the role mutation and response-send platform calls. -/
structure AlertsEnv where
  configPresent : Bool
  cmdGuild : Option Nat
  cfgGuild : Nat
  alertsRole : Nat
  memberFetch : Except Unit (List Nat)
  removeOk : Bool
  addOk : Bool
  sendOk : Bool
deriving Repr

/-- `command.create_response(..).await?`: the message content is recorded as
sent (attempted), and a send failure propagates as an error. -/
def respond (msg : String) (sendOk : Bool) : List String × Except AlertsError Unit :=
  if sendOk then ([msg], .ok ()) else ([msg], .error .sendFailed)

/-- `handle_alerts_command(ctx, command)`: the list of response contents the
handler attempts to send, and its result. -/
def handle_alerts_command (env : AlertsEnv) : List String × Except AlertsError Unit :=
  if env.configPresent then
    match env.cmdGuild with
    | none => respond "This command can only be used in a guild" env.sendOk
    | some gid =>
        if gid = env.cfgGuild then
          if env.alertsRole = 0 then
            respond "Alerts role is not configured. Please contact an administrator."
              env.sendOk
          else
            match env.memberFetch with
            | .error _ => ([], .error .fetchFailed)
            | .ok roles =>
                let hasRole := roles.contains env.alertsRole
                let mr :=
                  if hasRole then
                    if env.removeOk then ("Successfully removed the alerts role!", true)
                    else ("Failed to remove the alerts role. Please contact an administrator.",
                      false)
                  else
                    if env.addOk then ("Successfully added the alerts role!", true)
                    else ("Failed to add the alerts role. Please contact an administrator.",
                      false)
                respond mr.1 env.sendOk
        else respond "This command is not available in this guild" env.sendOk
  else respond "Configuration not found" env.sendOk

/-! ### C10 theorem -/

/-- C10: when the guild check and the role-configured check pass but the
member fetch fails, the handler returns the error without attempting any
response; by contrast, when the fetch succeeds and the add-role or
remove-role call fails, an (ephemeral) failure message is always sent. -/
theorem c10_member_fetch_no_response :
    (∀ env : AlertsEnv, env.configPresent = true →
        env.cmdGuild = some env.cfgGuild → env.alertsRole ≠ 0 →
        env.memberFetch = Except.error () →
        handle_alerts_command env = ([], Except.error AlertsError.fetchFailed)) ∧
    (∀ (env : AlertsEnv) (roles : List Nat), env.configPresent = true →
        env.cmdGuild = some env.cfgGuild → env.alertsRole ≠ 0 →
        env.memberFetch = Except.ok roles →
        (roles.contains env.alertsRole = true → env.removeOk = false →
          (handle_alerts_command env).1 =
            ["Failed to remove the alerts role. Please contact an administrator."]) ∧
        (roles.contains env.alertsRole = false → env.addOk = false →
          (handle_alerts_command env).1 =
            ["Failed to add the alerts role. Please contact an administrator."])) := by
  constructor
  · intro env hc hg hr hf
    simp [handle_alerts_command, hc, hg, hr, hf]
  · intro env roles hc hg hr hf
    constructor
    · intro hhas hrem
      have hmem : env.alertsRole ∈ roles := by simpa using hhas
      cases hs : env.sendOk <;>
        simp [handle_alerts_command, hc, hg, hr, hf, hmem, hrem, respond, hs]
    · intro hhas hadd
      have hmem : env.alertsRole ∉ roles := by simpa using hhas
      cases hs : env.sendOk <;>
        simp [handle_alerts_command, hc, hg, hr, hf, hmem, hadd, respond, hs]

/-- Witness for `c10_member_fetch_no_response`: guild 1, role 5, a failing
member fetch (no response, an error returned); and a member holding the
role whose role removal fails (one failure message sent). -/
theorem c10_member_fetch_no_response_witness :
    handle_alerts_command ⟨true, some 1, 1, 5, Except.error (), true, true, true⟩ =
      ([], Except.error AlertsError.fetchFailed) ∧
    (handle_alerts_command ⟨true, some 1, 1, 5, Except.ok [5], false, true, true⟩).1 =
      ["Failed to remove the alerts role. Please contact an administrator."] :=
  ⟨c10_member_fetch_no_response.1 ⟨true, some 1, 1, 5, Except.error (), true, true, true⟩
      rfl rfl (by decide) rfl,
   (c10_member_fetch_no_response.2 ⟨true, some 1, 1, 5, Except.ok [5], false, true, true⟩
      [5] rfl rfl (by decide) rfl).1 (by decide) rfl⟩
